import Mathlib

/-!
Shallow embedding of the SOCKS5 proxy in src/main.py (classes SocksServer and
SocketWrapper) and proofs about its handshake, reply, relay and resource
behaviour.

Modelling conventions:
* The byte stream arriving from the client during the handshake is a
  `List Nat` (each element one byte).  `SocketWrapper.readexactly n` either
  returns the first `n` bytes, or raises (short read / timeout); raising is
  modelled as `none`.  An exception aborts the session: it is caught by the
  blanket handler in `SocksServer.handle_connection` (line 30 of main.py).
* `socket.inet_ntop` formats 4 / 16 raw bytes as IPv4 / IPv6 text and never
  fails on inputs of those lengths; since the formatting is injective, the
  host produced by `readipv4` / `readipv6` is modelled as the raw octet list
  tagged with its kind.  `bytes.decode()` for domain names is strict UTF-8
  and can raise; it is modelled by the executable validator `utf8Valid`.
* Whether `asyncio.open_connection` succeeds is a property of the outside
  network, modelled by the oracle field `connectOk`; likewise the chunking
  that `read(BUF_SIZE)` happens to return during the relay phase is a
  network choice, modelled by the oracle chunk lists `clientChunks` and
  `upstreamChunks` (a chunk stream ends, per the code, at the first empty
  chunk = EOF, or simply when the oracle list runs out = abort/timeout).
* Writes (`SocketWrapper.write`) are modelled as appends to the per-socket
  output list; socket open/close events of the two `async with` blocks are
  recorded in an event trace.
-/

namespace Socks5

/-- VERSION constant, line 40 of main.py. -/
def VERSION : Nat := 0x05

/-- CMD_CONNECT constant, line 58 of main.py. -/
def CMD_CONNECT : Nat := 0x01

/-- ATYP_IPV4 constant, line 59 of main.py. -/
def ATYP_IPV4 : Nat := 0x01

/-- ATYP_DOMAIN constant, line 60 of main.py. -/
def ATYP_DOMAIN : Nat := 0x03

/-- ATYP_IPV6 constant, line 61 of main.py. -/
def ATYP_IPV6 : Nat := 0x04

/-- BUF_SIZE constant, line 91 of main.py. -/
def BUF_SIZE : Nat := 65536

/-- The literal 10-second timeout passed to asyncio.wait_for around
asyncio.open_connection, line 75 of main.py. -/
def CONNECT_TIMEOUT : Nat := 10

/-- SocketWrapper.readexactly (line 112): returns exactly `n` bytes, or
raises asyncio.IncompleteReadError / TimeoutError (modelled as `none`). -/
def readexactly (n : Nat) (s : List Nat) : Option (List Nat × List Nat) :=
  if n ≤ s.length then some (s.take n, s.drop n) else none

/-- SocketWrapper.readbyte (line 115): one byte, `data[0]`.  The catch-all
branch is unreachable because `readexactly 1` always yields a length-1
list. -/
def readbyte (s : List Nat) : Option (Nat × List Nat) :=
  match readexactly 1 s with
  | some ([b], rest) => some (b, rest)
  | _ => none

/-- SocketWrapper.readshort (line 119): two bytes combined as
`(data[0] << 8) | data[1]`.  The catch-all branch is unreachable. -/
def readshort (s : List Nat) : Option (Nat × List Nat) :=
  match readexactly 2 s with
  | some ([b0, b1], rest) => some ((b0 <<< 8) ||| b1, rest)
  | _ => none

/-- Whether a byte is a UTF-8 continuation byte (0x80..0xBF). -/
def utf8Cont (b : Nat) : Bool := decide (0x80 ≤ b ∧ b ≤ 0xBF)

/-- Strict UTF-8 validity of a byte list, as checked by Python
`bytes.decode()` with the default strict utf-8 codec: rejects bad lead
bytes, truncated sequences, overlong encodings, surrogates and code points
above U+10FFFF. -/
def utf8Valid : List Nat → Bool
  | [] => true
  | b :: rest =>
    if b ≤ 0x7F then utf8Valid rest
    else if 0xC2 ≤ b ∧ b ≤ 0xDF then
      match rest with
      | c1 :: r => utf8Cont c1 && utf8Valid r
      | _ => false
    else if b = 0xE0 then
      match rest with
      | c1 :: c2 :: r => decide (0xA0 ≤ c1 ∧ c1 ≤ 0xBF) && utf8Cont c2 && utf8Valid r
      | _ => false
    else if b = 0xED then
      match rest with
      | c1 :: c2 :: r => decide (0x80 ≤ c1 ∧ c1 ≤ 0x9F) && utf8Cont c2 && utf8Valid r
      | _ => false
    else if 0xE1 ≤ b ∧ b ≤ 0xEF then
      match rest with
      | c1 :: c2 :: r => utf8Cont c1 && utf8Cont c2 && utf8Valid r
      | _ => false
    else if b = 0xF0 then
      match rest with
      | c1 :: c2 :: c3 :: r =>
        decide (0x90 ≤ c1 ∧ c1 ≤ 0xBF) && utf8Cont c2 && utf8Cont c3 && utf8Valid r
      | _ => false
    else if b = 0xF4 then
      match rest with
      | c1 :: c2 :: c3 :: r =>
        decide (0x80 ≤ c1 ∧ c1 ≤ 0x8F) && utf8Cont c2 && utf8Cont c3 && utf8Valid r
      | _ => false
    else if 0xF1 ≤ b ∧ b ≤ 0xF3 then
      match rest with
      | c1 :: c2 :: c3 :: r => utf8Cont c1 && utf8Cont c2 && utf8Cont c3 && utf8Valid r
      | _ => false
    else false

/-- SocketWrapper.readstr (line 123): read `n` bytes and decode them as
UTF-8 text; a decode failure raises (modelled as `none`).  The decoded
value is kept as its raw byte list (the decoding is injective). -/
def readstr (n : Nat) (s : List Nat) : Option (List Nat × List Nat) :=
  match readexactly n s with
  | some (d, rest) => if utf8Valid d then some (d, rest) else none
  | none => none

/-- SocketWrapper.readipv4 (line 127): 4 raw octets, formatted by
inet_ntop (kept raw here). -/
def readipv4 (s : List Nat) : Option (List Nat × List Nat) :=
  readexactly 4 s

/-- SocketWrapper.readipv6 (line 131): 16 raw octets, formatted by
inet_ntop (kept raw here). -/
def readipv6 (s : List Nat) : Option (List Nat × List Nat) :=
  readexactly 16 s

/-- The destination host value produced by the address-type dispatch of
handle_connection_core (lines 65-72), tagged with how it was read. -/
inductive Host where
  | ipv4 (octets : List Nat)
  | domain (name : List Nat)
  | ipv6 (octets : List Nat)
deriving DecidableEq

/-- Result of the address-type dispatch, lines 65-72 of main.py:
either a host plus the unconsumed stream, the `return` on an unknown
address type (line 72), or an exception during the reads. -/
inductive AddrOutcome where
  | ok (host : Host) (rest : List Nat)
  | badAtyp
  | aborted
deriving DecidableEq

/-- Lines 65-72 of handle_connection_core: dispatch on the address type
and read the destination host. -/
def resolveAddress (atyp : Nat) (s : List Nat) : AddrOutcome :=
  if atyp = ATYP_IPV4 then
    match readipv4 s with
    | some (a, rest) => .ok (.ipv4 a) rest
    | none => .aborted
  else if atyp = ATYP_DOMAIN then
    match readbyte s with
    | some (n, s1) =>
      match readstr n s1 with
      | some (d, rest) => .ok (.domain d) rest
      | none => .aborted
    | none => .aborted
  else if atyp = ATYP_IPV6 then
    match readipv6 s with
    | some (a, rest) => .ok (.ipv6 a) rest
    | none => .aborted
  else .badAtyp

/-- SocksServer.forward (lines 90-96): repeatedly read a chunk from the
source and write it verbatim to the destination; an empty chunk (EOF)
stops the loop.  The argument is the oracle sequence of chunks the
successive `read(BUF_SIZE)` calls return; the result is the byte sequence
written to the destination. -/
def forward : List (List Nat) → List Nat
  | [] => []
  | data :: rest => if data.isEmpty then [] else data ++ forward rest

/-- How a session ends; one constructor per `return` / exception path of
handle_connection_core.  `aborted` covers any exception (short read,
timeout, decode error), caught by the blanket handler at line 30.
`connectFailed` (lines 76-78) carries the destination that is logged in
the warning message; `relaying` means line 88 was reached. -/
inductive Outcome where
  | badNegotiation
  | badRequest
  | badAtyp
  | aborted
  | connectFailed (host : Host) (port : Nat)
  | relaying (host : Host) (port : Nat)
deriving DecidableEq

/-- Whether the session reached the relaying stage. -/
def Outcome.isRelaying : Outcome → Bool
  | .relaying _ _ => true
  | _ => false

/-- One attempted upstream connect: destination plus the wait_for timeout
in seconds used for it (line 75 of main.py). -/
structure ConnectAttempt where
  host : Host
  port : Nat
  timeoutSeconds : Nat
deriving DecidableEq

/-- Socket lifecycle events of one session: creation of the upstream
connection (line 75) and the closes performed by the two `async with`
SocketWrapper blocks (lines 25 and 79). -/
inductive Event where
  | openUpstream
  | closeUpstream
  | closeClient
deriving DecidableEq

/-- Everything observable about one session: the bytes written to the
client socket and to the upstream socket in order, the connect attempts
made, the socket lifecycle event trace, and how the session ended. -/
structure SessionResult where
  toClient : List Nat
  toUpstream : List Nat
  connects : List ConnectAttempt
  events : List Event
  outcome : Outcome
deriving DecidableEq

/-- The environment of one session: the handshake bytes the client sends,
whether the upstream connect would succeed, and the oracle chunk streams
delivered by `read(BUF_SIZE)` in each relay direction. -/
structure SessionEnv where
  input : List Nat
  connectOk : Bool
  clientChunks : List (List Nat)
  upstreamChunks : List (List Nat)
deriving DecidableEq

/-- The fixed 2-byte method reply written at line 51 of main.py. -/
def methodReply : List Nat := [0x05, 0x00]

/-- The fixed 10-byte success reply written at line 87 of main.py. -/
def successReply : List Nat :=
  [0x05, 0x00, 0x00, 0x01, 0x00, 0x00, 0x00, 0x00, 0x00, 0x00]

/-- Prefix a write to the client socket onto a later partial result. -/
def prependClientWrite (w : List Nat) (r : SessionResult) : SessionResult :=
  ⟨w ++ r.toClient, r.toUpstream, r.connects, r.events, r.outcome⟩

/-- Lines 52-88 of handle_connection_core: read and validate the 4-byte
request header, resolve the destination address and port, attempt the
upstream connect (exactly one wait_for with the fixed 10-second timeout),
and on success write the 10-byte reply and run both forward loops.  The
inner `async with` (line 79) closes the upstream socket on every exit of
its block. -/
def requestPhase (s2 : List Nat) (connectOk : Bool)
    (clientChunks upstreamChunks : List (List Nat)) : SessionResult :=
  match readexactly 4 s2 with
  | some ([ver, cmd, _rsv, atyp], s3) =>
    if ver ≠ VERSION ∨ cmd ≠ CMD_CONNECT then ⟨[], [], [], [], .badRequest⟩
    else
      match resolveAddress atyp s3 with
      | .ok host s4 =>
        match readshort s4 with
        | some (port, _s5) =>
          if connectOk then
            ⟨successReply ++ forward upstreamChunks, forward clientChunks,
             [⟨host, port, CONNECT_TIMEOUT⟩],
             [.openUpstream, .closeUpstream],
             .relaying host port⟩
          else
            ⟨[], [], [⟨host, port, CONNECT_TIMEOUT⟩], [], .connectFailed host port⟩
        | none => ⟨[], [], [], [], .aborted⟩
      | .badAtyp => ⟨[], [], [], [], .badAtyp⟩
      | .aborted => ⟨[], [], [], [], .aborted⟩
  | _ => ⟨[], [], [], [], .aborted⟩

/-- SocksServer.handle_connection_core, lines 33-88 of main.py: method
negotiation (read 2 bytes, validate, read and discard the method list,
write the fixed reply) followed by the request phase. -/
def handle_connection_core (env : SessionEnv) : SessionResult :=
  match readexactly 2 env.input with
  | some ([ver, nmethods], s1) =>
    if ver ≠ VERSION ∨ nmethods < 1 then ⟨[], [], [], [], .badNegotiation⟩
    else
      match readexactly nmethods s1 with
      | some (_, s2) =>
        prependClientWrite methodReply
          (requestPhase s2 env.connectOk env.clientChunks env.upstreamChunks)
      | none => ⟨[], [], [], [], .aborted⟩
  | _ => ⟨[], [], [], [], .aborted⟩

/-- SocksServer.handle_connection, lines 24-31 of main.py: the outer
`async with SocketWrapper(...) as client` closes the client socket when
the block exits, and the blanket `except` means every exception from the
core ends here, after which the client socket is still closed. -/
def handle_connection (env : SessionEnv) : SessionResult :=
  let r := handle_connection_core env
  ⟨r.toClient, r.toUpstream, r.connects, r.events ++ [.closeClient], r.outcome⟩

/-- State of one underlying socket as far as closing is concerned. -/
structure SockState where
  closed : Bool
deriving DecidableEq

/-- SocketWrapper.close, lines 139-144 of main.py: closes the writer and
waits for the close to finish, swallowing any exception from the wait, so
the only state change is that the socket is now closed. -/
def close (_s : SockState) : SockState := ⟨true⟩

/-- A fully valid session environment: one offered method (0x00), CONNECT
to IPv4 127.0.0.1 port 80, upstream connect succeeding, and relay chunk
streams ending in a clean EOF. -/
def envHappy : SessionEnv :=
  ⟨[0x05, 0x01, 0x00, 0x05, 0x01, 0x00, 0x01, 127, 0, 0, 1, 0x00, 0x50],
   true, [[104, 105], []], [[111, 107], []]⟩

/-- The same handshake as `envHappy` but with the upstream connect
failing. -/
def envConnectFail : SessionEnv :=
  ⟨[0x05, 0x01, 0x00, 0x05, 0x01, 0x00, 0x01, 127, 0, 0, 1, 0x00, 0x50],
   false, [], []⟩

/-- A session whose first byte is not 0x05, so negotiation fails. -/
def envBadVersion : SessionEnv := ⟨[0x04, 0x01, 0x00], true, [], []⟩

/-- Valid negotiation followed by a request whose command byte is 0x02
(BIND), which the server does not support. -/
def envBadCmd : SessionEnv :=
  ⟨[0x05, 0x01, 0x00, 0x05, 0x02, 0x00, 0x01, 127, 0, 0, 1, 0x00, 0x50],
   true, [], []⟩

/-! Helper lemmas about the readers and the two phases. -/

theorem readexactly_append (xs ys : List Nat) :
    readexactly xs.length (xs ++ ys) = some (xs, ys) := by
  simp [readexactly]

theorem readexactly_len {n : Nat} (xs ys : List Nat) (h : xs.length = n) :
    readexactly n (xs ++ ys) = some (xs, ys) := by
  subst h; exact readexactly_append xs ys

theorem shiftLeft_or_eq_mul_add (b0 b1 : Nat) (h : b1 < 256) :
    (b0 <<< 8) ||| b1 = 256 * b0 + b1 := by
  have h8 : b1 < 2 ^ 8 := lt_of_lt_of_eq h (by norm_num)
  rw [Nat.shiftLeft_eq, Nat.mul_comm, ← Nat.mul_add_lt_is_or h8 b0]

theorem forward_eq_join (chunks : List (List Nat)) :
    forward chunks = (chunks.takeWhile (fun c => !c.isEmpty)).flatten := by
  induction chunks with
  | nil => rfl
  | cons c rest ih =>
    simp only [forward, List.takeWhile_cons]
    by_cases hc : c.isEmpty
    · simp [hc]
    · simp [hc, ih]

theorem handle_connection_eq (env : SessionEnv) :
    handle_connection env =
      ⟨(handle_connection_core env).toClient,
       (handle_connection_core env).toUpstream,
       (handle_connection_core env).connects,
       (handle_connection_core env).events ++ [Event.closeClient],
       (handle_connection_core env).outcome⟩ := rfl

theorem requestPhase_cases (s2 : List Nat) (co : Bool) (cc uc : List (List Nat)) :
    (requestPhase s2 co cc uc = ⟨[], [], [], [], .badRequest⟩) ∨
    (requestPhase s2 co cc uc = ⟨[], [], [], [], .badAtyp⟩) ∨
    (requestPhase s2 co cc uc = ⟨[], [], [], [], .aborted⟩) ∨
    (∃ h p, requestPhase s2 co cc uc =
       ⟨[], [], [⟨h, p, CONNECT_TIMEOUT⟩], [], .connectFailed h p⟩) ∨
    (∃ h p, requestPhase s2 co cc uc =
       ⟨successReply ++ forward uc, forward cc, [⟨h, p, CONNECT_TIMEOUT⟩],
        [.openUpstream, .closeUpstream], .relaying h p⟩) := by
  unfold requestPhase
  repeat' split
  all_goals first
    | exact Or.inl rfl
    | exact Or.inr (Or.inl rfl)
    | exact Or.inr (Or.inr (Or.inl rfl))
    | exact Or.inr (Or.inr (Or.inr (Or.inl ⟨_, _, rfl⟩)))
    | exact Or.inr (Or.inr (Or.inr (Or.inr ⟨_, _, rfl⟩)))

theorem core_cases (env : SessionEnv) :
    (handle_connection_core env = ⟨[], [], [], [], .badNegotiation⟩) ∨
    (handle_connection_core env = ⟨[], [], [], [], .aborted⟩) ∨
    (∃ s2, handle_connection_core env =
       prependClientWrite methodReply
         (requestPhase s2 env.connectOk env.clientChunks env.upstreamChunks)) := by
  unfold handle_connection_core
  repeat' split
  all_goals first
    | exact Or.inl rfl
    | exact Or.inr (Or.inl rfl)
    | exact Or.inr (Or.inr ⟨_, rfl⟩)

theorem core_nego_ok (n : Nat) (methods rest : List Nat) (co : Bool)
    (cc uc : List (List Nat)) (hn : 1 ≤ n) (hm : methods.length = n) :
    handle_connection_core ⟨[VERSION, n] ++ (methods ++ rest), co, cc, uc⟩ =
      prependClientWrite methodReply (requestPhase rest co cc uc) := by
  have h2 : readexactly 2 (VERSION :: n :: (methods ++ rest)) =
      some ([VERSION, n], methods ++ rest) :=
    readexactly_len [VERSION, n] (methods ++ rest) rfl
  have hms : readexactly n (methods ++ rest) = some (methods, rest) :=
    readexactly_len _ _ hm
  have hn0 : n ≠ 0 := by omega
  simp [handle_connection_core, h2, hms, hn0]

theorem requestPhase_header_ok (v c r a : Nat) (rest : List Nat) (co : Bool)
    (cc uc : List (List Nat)) :
    requestPhase ([v, c, r, a] ++ rest) co cc uc =
      (if v ≠ VERSION ∨ c ≠ CMD_CONNECT then ⟨[], [], [], [], .badRequest⟩
       else
        match resolveAddress a rest with
        | .ok host s4 =>
          match readshort s4 with
          | some (port, _s5) =>
            if co then
              ⟨successReply ++ forward uc, forward cc,
               [⟨host, port, CONNECT_TIMEOUT⟩],
               [.openUpstream, .closeUpstream],
               .relaying host port⟩
            else
              ⟨[], [], [⟨host, port, CONNECT_TIMEOUT⟩], [], .connectFailed host port⟩
          | none => ⟨[], [], [], [], .aborted⟩
        | .badAtyp => ⟨[], [], [], [], .badAtyp⟩
        | .aborted => ⟨[], [], [], [], .aborted⟩) := by
  have h4 : readexactly 4 (v :: c :: r :: a :: rest) = some ([v, c, r, a], rest) :=
    readexactly_len [v, c, r, a] rest rfl
  simp [requestPhase, h4]

theorem core_relaying (env : SessionEnv) (h : Host) (p : Nat)
    (hr : (handle_connection_core env).outcome = .relaying h p) :
    handle_connection_core env =
      ⟨methodReply ++ (successReply ++ forward env.upstreamChunks),
       forward env.clientChunks,
       [⟨h, p, CONNECT_TIMEOUT⟩],
       [.openUpstream, .closeUpstream],
       .relaying h p⟩ := by
  rcases core_cases env with hc | hc | ⟨s2, hc⟩
  · rw [hc] at hr; simp at hr
  · rw [hc] at hr; simp at hr
  · rcases requestPhase_cases s2 env.connectOk env.clientChunks env.upstreamChunks with
      hq | hq | hq | ⟨h0, p0, hq⟩ | ⟨h0, p0, hq⟩ <;> rw [hq] at hc <;> rw [hc] at hr ⊢ <;>
      simp [prependClientWrite] at hr ⊢
    obtain ⟨rfl, rfl⟩ := hr
    exact ⟨rfl, rfl⟩

theorem core_connectFailed (env : SessionEnv) (h : Host) (p : Nat)
    (hr : (handle_connection_core env).outcome = .connectFailed h p) :
    handle_connection_core env =
      ⟨methodReply, [], [⟨h, p, CONNECT_TIMEOUT⟩], [], .connectFailed h p⟩ := by
  rcases core_cases env with hc | hc | ⟨s2, hc⟩
  · rw [hc] at hr; simp at hr
  · rw [hc] at hr; simp at hr
  · rcases requestPhase_cases s2 env.connectOk env.clientChunks env.upstreamChunks with
      hq | hq | hq | ⟨h0, p0, hq⟩ | ⟨h0, p0, hq⟩ <;> rw [hq] at hc <;> rw [hc] at hr ⊢ <;>
      simp [prependClientWrite] at hr ⊢
    obtain ⟨rfl, rfl⟩ := hr
    exact ⟨rfl, rfl⟩

theorem core_not_relaying (env : SessionEnv)
    (hnr : (handle_connection_core env).outcome.isRelaying = false) :
    ((handle_connection_core env).toClient = [] ∨
     (handle_connection_core env).toClient = methodReply) ∧
    (handle_connection_core env).events = [] := by
  rcases core_cases env with hc | hc | ⟨s2, hc⟩
  · rw [hc]; simp
  · rw [hc]; simp
  · rcases requestPhase_cases s2 env.connectOk env.clientChunks env.upstreamChunks with
      hq | hq | hq | ⟨h0, p0, hq⟩ | ⟨h0, p0, hq⟩ <;> rw [hq] at hc <;> rw [hc] at hnr ⊢ <;>
      simp [prependClientWrite, Outcome.isRelaying] at hnr ⊢

theorem core_connects_len (env : SessionEnv) :
    (handle_connection_core env).connects.length ≤ 1 := by
  rcases core_cases env with hc | hc | ⟨s2, hc⟩
  · rw [hc]; simp
  · rw [hc]; simp
  · rcases requestPhase_cases s2 env.connectOk env.clientChunks env.upstreamChunks with
      hq | hq | hq | ⟨h0, p0, hq⟩ | ⟨h0, p0, hq⟩ <;> rw [hq] at hc <;> rw [hc] <;>
      simp [prependClientWrite]

theorem core_events_cases (env : SessionEnv) :
    (handle_connection_core env).events = [] ∨
    (handle_connection_core env).events = [.openUpstream, .closeUpstream] := by
  rcases core_cases env with hc | hc | ⟨s2, hc⟩
  · rw [hc]; simp
  · rw [hc]; simp
  · rcases requestPhase_cases s2 env.connectOk env.clientChunks env.upstreamChunks with
      hq | hq | hq | ⟨h0, p0, hq⟩ | ⟨h0, p0, hq⟩ <;> rw [hq] at hc <;> rw [hc] <;>
      simp [prependClientWrite]

theorem core_request_abort (env : SessionEnv)
    (hr : (handle_connection_core env).outcome = .badRequest ∨
          (handle_connection_core env).outcome = .badAtyp) :
    (handle_connection_core env).toClient = methodReply ∧
    (handle_connection_core env).events = [] := by
  rcases core_cases env with hc | hc | ⟨s2, hc⟩
  · rw [hc] at hr; simp at hr
  · rw [hc] at hr; simp at hr
  · rcases requestPhase_cases s2 env.connectOk env.clientChunks env.upstreamChunks with
      hq | hq | hq | ⟨h0, p0, hq⟩ | ⟨h0, p0, hq⟩ <;> rw [hq] at hc <;> rw [hc] at hr ⊢ <;>
      simp [prependClientWrite] at hr ⊢

/-! The claims. -/

/-- C1: for every session that reaches the relaying stage, the bytes
delivered by each relay direction to its destination are exactly the
concatenation, in order, of the chunks read from its source (the chunks
read are those before the first empty EOF chunk), with no alteration,
reordering or reframing, in both directions: client to upstream and
upstream to client. -/
theorem relay_byte_transparent :
    (∀ chunks : List (List Nat),
       forward chunks = (chunks.takeWhile (fun c => !c.isEmpty)).flatten) ∧
    (∀ (env : SessionEnv) (h : Host) (p : Nat),
       (handle_connection env).outcome = .relaying h p →
       (handle_connection env).toUpstream = forward env.clientChunks ∧
       (handle_connection env).toClient =
         methodReply ++ (successReply ++ forward env.upstreamChunks)) := by
  refine ⟨forward_eq_join, ?_⟩
  intro env h p hr
  have hr2 : (handle_connection_core env).outcome = .relaying h p := hr
  have hc := core_relaying env h p hr2
  rw [handle_connection_eq, hc]
  simp

theorem relay_byte_transparent_witness :
    (handle_connection envHappy).outcome = .relaying (.ipv4 [127, 0, 0, 1]) 80 ∧
    ((handle_connection envHappy).toUpstream = forward envHappy.clientChunks ∧
     (handle_connection envHappy).toClient =
       methodReply ++ (successReply ++ forward envHappy.upstreamChunks)) :=
  ⟨by decide, relay_byte_transparent.2 envHappy (.ipv4 [127, 0, 0, 1]) 80 (by decide)⟩

/-- C2: for every session whose upstream connect succeeds (it reaches the
relaying stage), the exact 10 bytes 05 00 00 01 00 00 00 00 00 00 are
written to the client, after the 2-byte method reply and before any
relayed payload bytes. -/
theorem success_reply_exact_and_first :
    ∀ (env : SessionEnv) (h : Host) (p : Nat),
      (handle_connection env).outcome = .relaying h p →
      (handle_connection env).toClient =
        methodReply ++ (successReply ++ forward env.upstreamChunks) ∧
      successReply = [0x05, 0x00, 0x00, 0x01, 0x00, 0x00, 0x00, 0x00, 0x00, 0x00] ∧
      successReply.length = 10 := by
  intro env h p hr
  have hr2 : (handle_connection_core env).outcome = .relaying h p := hr
  have hc := core_relaying env h p hr2
  refine ⟨?_, rfl, rfl⟩
  rw [handle_connection_eq, hc]

theorem success_reply_exact_and_first_witness :
    (handle_connection envHappy).outcome = .relaying (.ipv4 [127, 0, 0, 1]) 80 ∧
    ((handle_connection envHappy).toClient =
       methodReply ++ (successReply ++ forward envHappy.upstreamChunks) ∧
     successReply = [0x05, 0x00, 0x00, 0x01, 0x00, 0x00, 0x00, 0x00, 0x00, 0x00] ∧
     successReply.length = 10) :=
  ⟨by decide,
   success_reply_exact_and_first envHappy (.ipv4 [127, 0, 0, 1]) 80 (by decide)⟩

/-- C3: for every valid negotiation (first byte 0x05, method count at
least 1, exactly that many method bytes following), the server writes
exactly the two bytes 0x05 0x00 as its first write, and the whole session
is unchanged when the advertised method list is replaced by any other
list of the same length: the list is read and discarded without
inspection. -/
theorem nego_reply_fixed :
    ∀ (n : Nat) (methods1 methods2 rest : List Nat) (co : Bool)
      (cc uc : List (List Nat)),
      1 ≤ n → methods1.length = n → methods2.length = n →
      (handle_connection ⟨[VERSION, n] ++ (methods1 ++ rest), co, cc, uc⟩ =
       handle_connection ⟨[VERSION, n] ++ (methods2 ++ rest), co, cc, uc⟩) ∧
      (handle_connection ⟨[VERSION, n] ++ (methods1 ++ rest), co, cc, uc⟩).toClient.take 2 =
        [0x05, 0x00] := by
  intro n m1 m2 rest co cc uc hn h1 h2
  have e1 := core_nego_ok n m1 rest co cc uc hn h1
  have e2 := core_nego_ok n m2 rest co cc uc hn h2
  constructor
  · rw [handle_connection_eq, handle_connection_eq, e1, e2]
  · rw [handle_connection_eq, e1]
    simp [prependClientWrite, methodReply]

theorem nego_reply_fixed_witness :
    1 ≤ 2 ∧ ([0x00, 0x01] : List Nat).length = 2 ∧ ([0xFF, 0x03] : List Nat).length = 2 ∧
    ((handle_connection ⟨[VERSION, 2] ++ ([0x00, 0x01] ++ []), false, [], []⟩ =
      handle_connection ⟨[VERSION, 2] ++ ([0xFF, 0x03] ++ []), false, [], []⟩) ∧
     (handle_connection ⟨[VERSION, 2] ++ ([0x00, 0x01] ++ []), false, [], []⟩).toClient.take 2 =
       [0x05, 0x00]) :=
  ⟨by decide, by decide, by decide,
   nego_reply_fixed 2 [0x00, 0x01] [0xFF, 0x03] [] false [] []
     (by decide) (by decide) (by decide)⟩

/-- C4: the bytes consumed after the 4-byte request header are determined
by the address type: ATYP 0x01 consumes exactly 4 address bytes, ATYP
0x03 exactly 1 length byte plus that many name bytes, ATYP 0x04 exactly
16 address bytes, any other ATYP aborts; and the 2 port bytes that follow
are read as a big-endian unsigned 16-bit integer. -/
theorem request_address_consumption :
    (∀ (a rest : List Nat), a.length = 4 →
       resolveAddress ATYP_IPV4 (a ++ rest) = .ok (.ipv4 a) rest) ∧
    (∀ (n : Nat) (d rest : List Nat), d.length = n → utf8Valid d = true →
       resolveAddress ATYP_DOMAIN (n :: (d ++ rest)) = .ok (.domain d) rest) ∧
    (∀ (a rest : List Nat), a.length = 16 →
       resolveAddress ATYP_IPV6 (a ++ rest) = .ok (.ipv6 a) rest) ∧
    (∀ (atyp : Nat) (s : List Nat),
       atyp ≠ ATYP_IPV4 → atyp ≠ ATYP_DOMAIN → atyp ≠ ATYP_IPV6 →
       resolveAddress atyp s = .badAtyp) ∧
    (∀ (b0 b1 : Nat) (rest : List Nat), b1 < 256 →
       readshort (b0 :: b1 :: rest) = some (256 * b0 + b1, rest)) := by
  refine ⟨?_, ?_, ?_, ?_, ?_⟩
  · intro a rest ha
    simp [resolveAddress, readipv4, readexactly_len a rest ha]
  · intro n d rest hd hv
    have h1 : readexactly 1 (n :: (d ++ rest)) = some ([n], d ++ rest) :=
      readexactly_len [n] (d ++ rest) rfl
    have h2 : readexactly n (d ++ rest) = some (d, rest) := readexactly_len d rest hd
    simp [resolveAddress, readbyte, readstr, h1, h2, hv,
      ATYP_DOMAIN, ATYP_IPV4]
  · intro a rest ha
    simp [resolveAddress, readipv6, readexactly_len a rest ha,
      ATYP_IPV6, ATYP_IPV4, ATYP_DOMAIN]
  · intro atyp s h1 h3 h4
    simp [resolveAddress, h1, h3, h4]
  · intro b0 b1 rest hb1
    have h2 : readexactly 2 (b0 :: b1 :: rest) = some ([b0, b1], rest) :=
      readexactly_len [b0, b1] rest rfl
    simp [readshort, h2, shiftLeft_or_eq_mul_add b0 b1 hb1]

theorem request_address_consumption_witness :
    resolveAddress ATYP_IPV4 ([127, 0, 0, 1] ++ [0, 80]) =
      .ok (.ipv4 [127, 0, 0, 1]) [0, 80] ∧
    resolveAddress ATYP_DOMAIN (3 :: ([97, 98, 99] ++ [0, 80])) =
      .ok (.domain [97, 98, 99]) [0, 80] ∧
    resolveAddress ATYP_IPV6
        ([0, 0, 0, 0, 0, 0, 0, 0, 0, 0, 0, 0, 0, 0, 0, 1] ++ [1, 187]) =
      .ok (.ipv6 [0, 0, 0, 0, 0, 0, 0, 0, 0, 0, 0, 0, 0, 0, 0, 1]) [1, 187] ∧
    resolveAddress 2 [9, 9] = .badAtyp ∧
    readshort (1 :: 187 :: []) = some (443, []) :=
  ⟨request_address_consumption.1 [127, 0, 0, 1] [0, 80] (by decide),
   request_address_consumption.2.1 3 [97, 98, 99] [0, 80] (by decide) (by decide),
   request_address_consumption.2.2.1
     [0, 0, 0, 0, 0, 0, 0, 0, 0, 0, 0, 0, 0, 0, 0, 1] [1, 187] (by decide),
   request_address_consumption.2.2.2.1 2 [9, 9] (by decide) (by decide) (by decide),
   request_address_consumption.2.2.2.2 1 187 [] (by decide)⟩

/-- C5: every session that does not reach the relaying stage (protocol
violation in negotiation or request parsing, connect failure, timeout or
other I/O error) closes the connection having sent the client either
nothing at all or only the 2-byte method reply: no SOCKS5 error-code
reply is ever transmitted and the 10-byte success reply is written only
on the happy path. -/
theorem failure_silent :
    ∀ env : SessionEnv,
      (handle_connection env).outcome.isRelaying = false →
      ((handle_connection env).toClient = [] ∨
       (handle_connection env).toClient = methodReply) ∧
      (handle_connection env).events = [Event.closeClient] := by
  intro env hnr
  have hnr2 : (handle_connection_core env).outcome.isRelaying = false := hnr
  have hc := core_not_relaying env hnr2
  rw [handle_connection_eq]
  refine ⟨hc.1, ?_⟩
  show (handle_connection_core env).events ++ [Event.closeClient] = _
  rw [hc.2]; rfl

theorem failure_silent_witness :
    (handle_connection envBadVersion).outcome.isRelaying = false ∧
    (((handle_connection envBadVersion).toClient = [] ∨
      (handle_connection envBadVersion).toClient = methodReply) ∧
     (handle_connection envBadVersion).events = [Event.closeClient]) :=
  ⟨by decide, failure_silent envBadVersion (by decide)⟩

/-- C6: every request whose version byte is not 0x05 or whose command
byte is not 0x01 (CONNECT) aborts the session: the client gets only the
2-byte method reply, no request reply, no connect attempt is made and
the connection is closed. -/
theorem bad_request_aborts_without_reply :
    ∀ (n : Nat) (methods : List Nat) (v c r a : Nat) (rest : List Nat)
      (co : Bool) (cc uc : List (List Nat)),
      1 ≤ n → methods.length = n → (v ≠ VERSION ∨ c ≠ CMD_CONNECT) →
      handle_connection
          ⟨[VERSION, n] ++ (methods ++ ([v, c, r, a] ++ rest)), co, cc, uc⟩ =
        ⟨methodReply, [], [], [Event.closeClient], .badRequest⟩ := by
  intro n methods v c r a rest co cc uc hn hm hvc
  have e1 := core_nego_ok n methods ([v, c, r, a] ++ rest) co cc uc hn hm
  rw [handle_connection_eq, e1, requestPhase_header_ok]
  simp [hvc, prependClientWrite]

theorem bad_request_aborts_without_reply_witness :
    1 ≤ 1 ∧ ([0x00] : List Nat).length = 1 ∧ ((5 : Nat) ≠ VERSION ∨ (2 : Nat) ≠ CMD_CONNECT) ∧
    handle_connection
        ⟨[VERSION, 1] ++ ([0x00] ++ ([5, 2, 0, 1] ++ [127, 0, 0, 1, 0, 80])),
         true, [], []⟩ =
      ⟨methodReply, [], [], [Event.closeClient], .badRequest⟩ :=
  ⟨by decide, by decide, by decide,
   bad_request_aborts_without_reply 1 [0x00] 5 2 0 1 [127, 0, 0, 1, 0, 80]
     true [] [] (by decide) (by decide) (by decide)⟩

/-- C7: per session at most one upstream connect is ever attempted; when
the target is resolved the connect is attempted exactly once with the
fixed 10-second timeout; and on a connect failure the session ends with
only the method reply sent, so the 10-byte success reply is never sent,
with the destination recorded (logged) in the failure outcome. -/
theorem connect_single_attempt_fixed_timeout :
    (∀ env : SessionEnv, (handle_connection env).connects.length ≤ 1) ∧
    (∀ (env : SessionEnv) (h : Host) (p : Nat),
       (handle_connection env).outcome = .connectFailed h p ∨
       (handle_connection env).outcome = .relaying h p →
       (handle_connection env).connects = [⟨h, p, CONNECT_TIMEOUT⟩] ∧
       CONNECT_TIMEOUT = 10) ∧
    (∀ (env : SessionEnv) (h : Host) (p : Nat),
       (handle_connection env).outcome = .connectFailed h p →
       (handle_connection env).toClient = methodReply) := by
  refine ⟨?_, ?_, ?_⟩
  · intro env
    exact core_connects_len env
  · intro env h p hr
    rcases hr with hr | hr
    · have hc := core_connectFailed env h p hr
      refine ⟨?_, rfl⟩
      show (handle_connection_core env).connects = _
      rw [hc]
    · have hc := core_relaying env h p hr
      refine ⟨?_, rfl⟩
      show (handle_connection_core env).connects = _
      rw [hc]
  · intro env h p hr
    have hc := core_connectFailed env h p hr
    show (handle_connection_core env).toClient = _
    rw [hc]

theorem connect_single_attempt_fixed_timeout_witness :
    (handle_connection envConnectFail).outcome = .connectFailed (.ipv4 [127, 0, 0, 1]) 80 ∧
    ((handle_connection envConnectFail).connects =
       [⟨.ipv4 [127, 0, 0, 1], 80, CONNECT_TIMEOUT⟩] ∧ CONNECT_TIMEOUT = 10) ∧
    (handle_connection envConnectFail).toClient = methodReply ∧
    (handle_connection envConnectFail).connects.length ≤ 1 :=
  ⟨by decide,
   connect_single_attempt_fixed_timeout.2.1 envConnectFail (.ipv4 [127, 0, 0, 1]) 80
     (Or.inl (by decide)),
   connect_single_attempt_fixed_timeout.2.2 envConnectFail (.ipv4 [127, 0, 0, 1]) 80
     (by decide),
   connect_single_attempt_fixed_timeout.1 envConnectFail⟩

/-- C8: in every session the upstream socket is opened at most once, both
sockets are closed before the session ends on every outcome (the event
trace is either just the client close, or upstream open, upstream close,
client close, in that order), and closing a socket is idempotent. -/
theorem sockets_closed_and_close_idempotent :
    (∀ env : SessionEnv,
       (handle_connection env).events = [Event.closeClient] ∨
       (handle_connection env).events =
         [Event.openUpstream, Event.closeUpstream, Event.closeClient]) ∧
    (∀ env : SessionEnv,
       (handle_connection env).events.count Event.openUpstream ≤ 1) ∧
    (∀ s : SockState, close (close s) = close s ∧ (close s).closed = true) := by
  refine ⟨?_, ?_, ?_⟩
  · intro env
    rw [handle_connection_eq]
    rcases core_events_cases env with hc | hc <;> simp [hc]
  · intro env
    rw [handle_connection_eq]
    rcases core_events_cases env with hc | hc <;> simp [hc]
  · intro s
    exact ⟨rfl, rfl⟩

/-- C9: every session in which negotiation succeeded but the request
stage aborts (wrong version or non-CONNECT command, or unknown address
type) has written to the client exactly the two method-reply bytes
0x05 0x00 by the time the session closes, and nothing after the abort. -/
theorem method_reply_only_on_request_abort :
    ∀ env : SessionEnv,
      (handle_connection env).outcome = .badRequest ∨
      (handle_connection env).outcome = .badAtyp →
      (handle_connection env).toClient = methodReply ∧
      (handle_connection env).events = [Event.closeClient] := by
  intro env hr
  have hr2 : (handle_connection_core env).outcome = .badRequest ∨
      (handle_connection_core env).outcome = .badAtyp := hr
  have hc := core_request_abort env hr2
  rw [handle_connection_eq]
  refine ⟨hc.1, ?_⟩
  show (handle_connection_core env).events ++ [Event.closeClient] = _
  rw [hc.2]; rfl

theorem method_reply_only_on_request_abort_witness :
    (handle_connection envBadCmd).outcome = .badRequest ∧
    ((handle_connection envBadCmd).toClient = methodReply ∧
     (handle_connection envBadCmd).events = [Event.closeClient]) :=
  ⟨by decide, method_reply_only_on_request_abort envBadCmd (Or.inl (by decide))⟩

/-- C10: for requests with version 0x05 and command 0x01, the whole
observable session result is identical for any two values of the
reserved byte: it is read as part of the 4-byte header but never
validated or used. -/
theorem rsv_byte_irrelevant :
    ∀ (n : Nat) (methods : List Nat) (r1 r2 a : Nat) (rest : List Nat)
      (co : Bool) (cc uc : List (List Nat)),
      1 ≤ n → methods.length = n →
      handle_connection
          ⟨[VERSION, n] ++ (methods ++ ([VERSION, CMD_CONNECT, r1, a] ++ rest)),
           co, cc, uc⟩ =
        handle_connection
          ⟨[VERSION, n] ++ (methods ++ ([VERSION, CMD_CONNECT, r2, a] ++ rest)),
           co, cc, uc⟩ := by
  intro n methods r1 r2 a rest co cc uc hn hm
  rw [handle_connection_eq, handle_connection_eq,
      core_nego_ok n methods ([VERSION, CMD_CONNECT, r1, a] ++ rest) co cc uc hn hm,
      core_nego_ok n methods ([VERSION, CMD_CONNECT, r2, a] ++ rest) co cc uc hn hm,
      requestPhase_header_ok, requestPhase_header_ok]

theorem rsv_byte_irrelevant_witness :
    1 ≤ 1 ∧ ([0x00] : List Nat).length = 1 ∧
    handle_connection
        ⟨[VERSION, 1] ++ ([0x00] ++ ([VERSION, CMD_CONNECT, 0, 1] ++ [127, 0, 0, 1, 0, 80])),
         true, [], []⟩ =
      handle_connection
        ⟨[VERSION, 1] ++ ([0x00] ++ ([VERSION, CMD_CONNECT, 255, 1] ++ [127, 0, 0, 1, 0, 80])),
         true, [], []⟩ :=
  ⟨by decide, by decide,
   rsv_byte_irrelevant 1 [0x00] 0 255 1 [127, 0, 0, 1, 0, 80] true [] []
     (by decide) (by decide)⟩

end Socks5
